import Mathlib

/-!
Shallow embedding of the fuseboard graph-to-prompt compiler.

The definitions below are translated from the TypeScript source:
  * `src/components/graph/index.tsx` (buildSimplePrompt, handleGenerate),
  * `src/app/api/generate/route.ts` (urlToBase64, analyzeWithGeminiWhisk, POST),
  * `src/app/api/refine/route.ts` (POST),
  * `src/app/api/generate/route.ts` sibling variant (the keyless/credentialed
    dispatcher with the Pollinations fallback),
  * `src/store/use-projects.ts` (the zustand project store).

External effects (fetch, JSON parsing, the Gemini / Pollinations services)
are modelled by explicit outcome parameters; JavaScript string truthiness
(`a || b`, `!x`, `if (s)`) is modelled by the `jsOr` / `jsOrOpt` / `jsTruthy`
helpers; `String.prototype.trim` is modelled by `jsTrim` over the character
list of the string.
-/

/-- JS `a || b` on strings: `b` when `a` is the empty string (falsy). -/
def jsOr (a b : String) : String := if a = "" then b else a

/-- JS `o || d` on an optional string field: `d` when the field is absent or empty. -/
def jsOrOpt (o : Option String) (d : String) : String :=
  match o with
  | none => d
  | some s => if s = "" then d else s

/-- JS truthiness of an optional string field (`!!o`): present and non-empty. -/
def jsTruthy (o : Option String) : Bool :=
  match o with
  | none => false
  | some s => s != ""

/-- Model of JS `String.prototype.trim`: drop whitespace from both ends. -/
def jsTrim (s : String) : String :=
  String.mk (((s.data.dropWhile Char.isWhitespace).reverse.dropWhile
      Char.isWhitespace).reverse)

/-- Model of JS `String.prototype.startsWith`: prefix test on the character
list of the string. -/
def jsStartsWith (s p : String) : Bool := p.data.isPrefixOf s.data

/-- `sub` occurs inside `s` as a contiguous substring. -/
def containsSub (s sub : String) : Prop :=
  ∃ a b : List Char, s.data = a ++ sub.data ++ b

/-- A React Flow node as consumed by `buildSimplePrompt` / `handleGenerate`:
`n.type` together with the `n.data` fields the compiler reads. All fields are
optional at runtime (the editor writes them incrementally). -/
structure RFNode where
  type : Option String
  text : Option String
  alt : Option String
  note : Option String
  src : Option String
  role : Option String
deriving DecidableEq, Repr

/-- `buildSimplePrompt` from `src/components/graph/index.tsx`:
text-node texts (falsy filtered), then image-node alts defaulted to
`"image reference"` (falsy filtered), joined with `", "`. -/
def buildSimplePrompt (nodes : List RFNode) : String :=
  let texts := ((nodes.filter (fun n => n.type == some "textNode")).map
      (fun n => jsOrOpt n.text "")).filter (fun s => s != "")
  let imgs := ((nodes.filter (fun n => n.type == some "imageNode")).map
      (fun n => jsOrOpt n.alt "image reference")).filter (fun s => s != "")
  String.intercalate ", " (texts ++ imgs)

/-- Claim-side description: every text node's text, skipping empty/falsy text,
in snapshot order. -/
def textDescriptorsOf (nodes : List RFNode) : List String :=
  (nodes.filter (fun n => n.type == some "textNode" && jsTruthy n.text)).map
    (fun n => n.text.getD "")

/-- Claim-side description: every image node's altLabel in snapshot order,
a missing (absent or empty, i.e. JS-falsy) altLabel replaced by the literal
`"image reference"`. -/
def imageLabelsOf (nodes : List RFNode) : List String :=
  (nodes.filter (fun n => n.type == some "imageNode")).map
    (fun n => jsOrOpt n.alt "image reference")

theorem jsOrOpt_empty (o : Option String) : jsOrOpt o "" = o.getD "" := by
  cases o with
  | none => rfl
  | some s =>
    simp only [jsOrOpt, Option.getD_some]
    split <;> simp_all

theorem jsOrOpt_ne_beq (o : Option String) : (jsOrOpt o "" != "") = jsTruthy o := by
  cases o with
  | none => decide
  | some s =>
    simp only [jsOrOpt, jsTruthy]
    split <;> simp_all

theorem jsOrOpt_default_ne (o : Option String) (d : String) (hd : d ≠ "") :
    (jsOrOpt o d != "") = true := by
  cases o with
  | none => simpa [jsOrOpt] using hd
  | some s =>
    simp only [jsOrOpt]
    split
    · simpa using hd
    · simp_all

/-- C1: `buildSimplePrompt`, applied to any node list, returns the comma-joined
concatenation of every text node's text (skipping empty/falsy text) in snapshot
order, followed by every image node's altLabel in snapshot order with a missing
altLabel replaced by the literal `"image reference"`; for a list with no
contributing nodes it returns the empty string `""`. -/
theorem C1_buildSimplePrompt_shape (nodes : List RFNode) :
    buildSimplePrompt nodes
      = String.intercalate ", " (textDescriptorsOf nodes ++ imageLabelsOf nodes)
    ∧ buildSimplePrompt [] = "" := by
  constructor
  · unfold buildSimplePrompt
    have htexts :
        ((nodes.filter (fun n => n.type == some "textNode")).map
            (fun n => jsOrOpt n.text "")).filter (fun s => s != "")
          = textDescriptorsOf nodes := by
      rw [List.filter_map, List.filter_filter]
      unfold textDescriptorsOf
      rw [List.filter_congr (q := fun n => n.type == some "textNode" && jsTruthy n.text)]
      · exact List.map_congr_left (fun x _ => jsOrOpt_empty x.text)
      · intro x _
        simp only [Function.comp_apply, jsOrOpt_ne_beq, Bool.and_comm]
    have himgs :
        ((nodes.filter (fun n => n.type == some "imageNode")).map
            (fun n => jsOrOpt n.alt "image reference")).filter (fun s => s != "")
          = imageLabelsOf nodes := by
      unfold imageLabelsOf
      rw [List.filter_eq_self.mpr]
      intro a ha
      rcases List.mem_map.mp ha with ⟨x, _, hx⟩
      rw [← hx]
      exact jsOrOpt_default_ne x.alt "image reference" (by decide)
    rw [htexts, himgs]
  · rfl

/-- Image reference as received by the generate route (`ImageRef` in
`src/app/api/generate/route.ts`). The `role` field travels as a raw string in
the JSON body (the client sends `n.data?.role as string`), so it is modelled
as an arbitrary optional string. -/
structure ImageRef where
  url : String
  alt : String
  note : Option String
  role : Option String
deriving DecidableEq, Repr

/-- `images.filter(i => i.role === 'subject')` in `analyzeWithGeminiWhisk`. -/
def subjectImages (images : List ImageRef) : List ImageRef :=
  images.filter (fun i => i.role == some "subject")

/-- `images.filter(i => i.role === 'scene')`. -/
def sceneImages (images : List ImageRef) : List ImageRef :=
  images.filter (fun i => i.role == some "scene")

/-- `images.filter(i => i.role === 'style')`. -/
def styleImages (images : List ImageRef) : List ImageRef :=
  images.filter (fun i => i.role == some "style")

/-- `images.filter(i => !i.role || i.role === 'reference')`: absent or
JS-falsy (empty) role, or the literal string `"reference"`. -/
def referenceImages (images : List ImageRef) : List ImageRef :=
  images.filter (fun i => !jsTruthy i.role || i.role == some "reference")

/-- In how many of the four role buckets of `analyzeWithGeminiWhisk` a single
reference lands (the four filter predicates, counted). -/
def bucketCount (i : ImageRef) : Nat :=
  (if i.role == some "subject" then 1 else 0)
    + (if i.role == some "scene" then 1 else 0)
    + (if i.role == some "style" then 1 else 0)
    + (if (!jsTruthy i.role || i.role == some "reference") then 1 else 0)

/-- A role value for which the code's four bucket predicates cover the
reference at all: absent, empty, or one of the four recognized strings. -/
def recognizedRole (o : Option String) : Bool :=
  match o with
  | none => true
  | some s =>
      (s == "") || (s == "subject") || (s == "scene") || (s == "style")
        || (s == "reference")

/-- C2, counterexample: an included reference whose role is the unrecognized
string `"hero"` lands in none of the four role buckets — it is dropped from
the reasoning context entirely rather than treated as role `reference`, so the
claimed partition (and the claimed default-to-`reference`) fails. -/
theorem C2_unrecognized_role_in_no_bucket :
    bucketCount ⟨"https://x/a.png", "a", none, some "hero"⟩ = 0
    ∧ subjectImages [⟨"https://x/a.png", "a", none, some "hero"⟩] = []
    ∧ sceneImages [⟨"https://x/a.png", "a", none, some "hero"⟩] = []
    ∧ styleImages [⟨"https://x/a.png", "a", none, some "hero"⟩] = []
    ∧ referenceImages [⟨"https://x/a.png", "a", none, some "hero"⟩] = [] := by
  decide

/-- Conclusion of the amended C2: bucket membership is exactly the code's four
filter predicates, and a reference lands in exactly one bucket precisely when
its role is absent, empty, or one of the four recognized strings — otherwise
in none. -/
def c2BucketSpec (images : List ImageRef) (i : ImageRef) : Prop :=
  ((i ∈ subjectImages images ↔ i.role = some "subject")
    ∧ (i ∈ sceneImages images ↔ i.role = some "scene")
    ∧ (i ∈ styleImages images ↔ i.role = some "style")
    ∧ (i ∈ referenceImages images
        ↔ (!jsTruthy i.role || i.role == some "reference") = true))
  ∧ bucketCount i = (if recognizedRole i.role then 1 else 0)

/-- C2 (amended): for every included reference, membership in each role bucket
is given by the code's filter predicate, and the reference is in exactly one
bucket when its role is absent/empty/one of the four recognized strings, and in
no bucket when the role is any other string (instead of defaulting to
`reference` as the original claim states). -/
theorem C2_role_bucketing (images : List ImageRef) (i : ImageRef)
    (hi : i ∈ images) : c2BucketSpec images i := by
  constructor
  · refine ⟨?_, ?_, ?_, ?_⟩ <;>
      simp [subjectImages, sceneImages, styleImages, referenceImages,
        List.mem_filter, hi]
  · rcases hr : i.role with _ | s
    · simp [bucketCount, jsTruthy, recognizedRole, hr]
    · by_cases h1 : s = "subject"
      · subst h1; simp [bucketCount, jsTruthy, recognizedRole, hr]
      · by_cases h2 : s = "scene"
        · subst h2; simp [bucketCount, jsTruthy, recognizedRole, hr]
        · by_cases h3 : s = "style"
          · subst h3; simp [bucketCount, jsTruthy, recognizedRole, hr]
          · by_cases h4 : s = "reference"
            · subst h4; simp [bucketCount, jsTruthy, recognizedRole, hr]
            · by_cases h5 : s = ""
              · subst h5; simp [bucketCount, jsTruthy, recognizedRole, hr]
              · simp [bucketCount, jsTruthy, recognizedRole, hr, h1, h2, h3,
                  h4, h5]

theorem C2_role_bucketing_witness :
    (⟨"https://x/b.png", "b", none, some "scene"⟩ : ImageRef)
        ∈ [(⟨"https://x/b.png", "b", none, some "scene"⟩ : ImageRef)]
    ∧ c2BucketSpec [⟨"https://x/b.png", "b", none, some "scene"⟩]
        ⟨"https://x/b.png", "b", none, some "scene"⟩ :=
  ⟨by decide,
   C2_role_bucketing [⟨"https://x/b.png", "b", none, some "scene"⟩]
     ⟨"https://x/b.png", "b", none, some "scene"⟩ (by decide)⟩

/-- The per-bucket slices `analyzeWithGeminiWhisk` iterates when building the
reasoning request: `for (const img of subjectImages.slice(0, 2))`, etc. -/
structure IncludedImages where
  subject : List ImageRef
  scene : List ImageRef
  style : List ImageRef
  reference : List ImageRef
deriving DecidableEq, Repr

/-- `bucket.slice(0, 2)` for each of the four role buckets. -/
def includedImages (images : List ImageRef) : IncludedImages :=
  ⟨(subjectImages images).take 2, (sceneImages images).take 2,
   (styleImages images).take 2, (referenceImages images).take 2⟩

/-- All images that can reach the reasoning request, across the four buckets. -/
def includedAll (images : List ImageRef) : List ImageRef :=
  (includedImages images).subject ++ (includedImages images).scene
    ++ (includedImages images).style ++ (includedImages images).reference

/-- Conclusion of C5: each bucket's included slice has at most 2 elements (at
most 8 in total), the slice is the earliest-first prefix of the bucket in
snapshot order (reattaching the dropped tail restores the bucket exactly), and
both the included and the dropped references are still elements of the
untouched input snapshot. -/
def c5CapSpec (images : List ImageRef) : Prop :=
  ((includedImages images).subject.length ≤ 2
    ∧ (includedImages images).scene.length ≤ 2
    ∧ (includedImages images).style.length ≤ 2
    ∧ (includedImages images).reference.length ≤ 2
    ∧ (includedAll images).length ≤ 8)
  ∧ ((includedImages images).subject ++ (subjectImages images).drop 2
        = subjectImages images
    ∧ (includedImages images).scene ++ (sceneImages images).drop 2
        = sceneImages images
    ∧ (includedImages images).style ++ (styleImages images).drop 2
        = styleImages images
    ∧ (includedImages images).reference ++ (referenceImages images).drop 2
        = referenceImages images)
  ∧ ((∀ i ∈ includedAll images, i ∈ images)
    ∧ (∀ i ∈ (subjectImages images).drop 2, i ∈ images)
    ∧ (∀ i ∈ (sceneImages images).drop 2, i ∈ images)
    ∧ (∀ i ∈ (styleImages images).drop 2, i ∈ images)
    ∧ (∀ i ∈ (referenceImages images).drop 2, i ∈ images))

theorem mem_roleBucket_mem (p : ImageRef → Bool) (images : List ImageRef)
    (i : ImageRef) (hi : i ∈ images.filter p) : i ∈ images :=
  (List.mem_filter.mp hi).1

/-- C5: for every role bucket of the assembled context, at most the first 2
images of that bucket in snapshot order are included in the reasoning request
(so at most 8 images total); excess images within a bucket are silently
dropped, keeping the earliest-added ones, and the dropped images remain in the
(unmutated) graph snapshot. -/
theorem C5_bucket_caps (images : List ImageRef) : c5CapSpec images := by
  refine ⟨⟨?_, ?_, ?_, ?_, ?_⟩, ⟨?_, ?_, ?_, ?_⟩, ?_, ?_, ?_, ?_, ?_⟩
  · exact List.length_take_le 2 _
  · exact List.length_take_le 2 _
  · exact List.length_take_le 2 _
  · exact List.length_take_le 2 _
  · unfold includedAll
    have h1 := List.length_take_le 2 (subjectImages images)
    have h2 := List.length_take_le 2 (sceneImages images)
    have h3 := List.length_take_le 2 (styleImages images)
    have h4 := List.length_take_le 2 (referenceImages images)
    simp only [includedImages, List.length_append]
    omega
  · exact List.take_append_drop 2 (subjectImages images)
  · exact List.take_append_drop 2 (sceneImages images)
  · exact List.take_append_drop 2 (styleImages images)
  · exact List.take_append_drop 2 (referenceImages images)
  · intro i hi
    unfold includedAll includedImages at hi
    simp only [List.mem_append] at hi
    rcases hi with ((h | h) | h) | h <;>
      exact mem_roleBucket_mem _ images i (List.mem_of_mem_take h)
  · exact fun i hi => mem_roleBucket_mem _ images i (List.mem_of_mem_drop hi)
  · exact fun i hi => mem_roleBucket_mem _ images i (List.mem_of_mem_drop hi)
  · exact fun i hi => mem_roleBucket_mem _ images i (List.mem_of_mem_drop hi)
  · exact fun i hi => mem_roleBucket_mem _ images i (List.mem_of_mem_drop hi)

theorem C5_bucket_caps_witness :
    c5CapSpec
      [⟨"https://x/1.png", "one", none, some "subject"⟩,
       ⟨"https://x/2.png", "two", none, some "subject"⟩,
       ⟨"https://x/3.png", "three", none, some "subject"⟩]
    ∧ (includedImages
        [⟨"https://x/1.png", "one", none, some "subject"⟩,
         ⟨"https://x/2.png", "two", none, some "subject"⟩,
         ⟨"https://x/3.png", "three", none, some "subject"⟩]).subject
      = [⟨"https://x/1.png", "one", none, some "subject"⟩,
         ⟨"https://x/2.png", "two", none, some "subject"⟩] :=
  ⟨C5_bucket_caps _, by decide⟩

/-- Outcome of the reasoning-provider call inside `analyzeWithGeminiWhisk`
(`fetch` + `response.json()` + candidate extraction): the fetch/parse threw, a
non-success HTTP status, or a parsed body whose first candidate text is the
given optional string. -/
inductive GenOutcome where
  | networkError
  | httpError
  | okJson (candidate : Option String)
deriving DecidableEq, Repr

/-- The string returned by `analyzeWithGeminiWhisk` in
`src/app/api/generate/route.ts` as a function of the provider outcome: every
failure path returns `userPrompt`; a truthy candidate is returned trimmed.
(Per-image `urlToBase64` failures are absorbed before the call and do not
affect the returned string.) -/
def analyzeResult (userPrompt : String) (r : GenOutcome) : String :=
  match r with
  | .networkError => userPrompt
  | .httpError => userPrompt
  | .okJson none => userPrompt
  | .okJson (some t) => if t = "" then userPrompt else jsTrim t

/-- Provider outcomes the claims call a failure: network error, non-success
status, missing text result, empty text result. -/
def genFailed (r : GenOutcome) : Bool :=
  match r with
  | .networkError => true
  | .httpError => true
  | .okJson none => true
  | .okJson (some t) => t == ""

/-- Outcome of the `text.pollinations.ai` call inside the refine route. -/
inductive RefineOutcome where
  | networkError
  | httpError
  | okBody (body : String)
deriving DecidableEq, Repr

/-- An API route response: a refined prompt, or an error JSON with a status. -/
inductive RouteResp where
  | ok (refined : String)
  | err (status : Nat) (message : String)
deriving DecidableEq, Repr

/-- The fixed fallback suffix of `src/app/api/refine/route.ts`. -/
def refineSuffix : String :=
  ", cinematic lighting, 8k resolution, highly detailed, professional photography, commercial aesthetic"

/-- `POST` of `src/app/api/refine/route.ts` as a function of the provider
outcome: 400 when both `prompt` and `nodes` are falsy; on non-success HTTP
status the fixed-suffix fallback; on a thrown fetch error the catch block's
500 error JSON; on success the body trimmed, unconditionally. -/
def refinePOST (prompt : String) (hasNodes : Bool) (r : RefineOutcome) :
    RouteResp :=
  if prompt == "" && !hasNodes then .err 400 "Missing prompt or nodes"
  else
    match r with
    | .networkError => .err 500 "Failed to refine prompt"
    | .httpError => .ok (prompt ++ refineSuffix)
    | .okBody body => .ok (jsTrim body)

/-- C3, counterexample: two simulated provider failures under which the refine
route does not return a non-empty prompt — an empty success body yields the
empty refined string, and a network error yields an error JSON with no prompt
at all. -/
theorem C3_refine_empty_or_error :
    refinePOST "a cat" false (RefineOutcome.okBody "") = RouteResp.ok ""
    ∧ refinePOST "a cat" false RefineOutcome.networkError
        = RouteResp.err 500 "Failed to refine prompt" := by
  decide

/-- Conclusion of the amended C3: on every simulated provider failure the
generate-route compilation returns the (non-empty) userPrompt and never
throws, while the refine route degrades to a non-empty prompt only on a
non-success HTTP status and answers a network exception with an error JSON. -/
def c3Spec (p : String) (r : GenOutcome) : Prop :=
  analyzeResult p r = p
  ∧ analyzeResult p r ≠ ""
  ∧ refinePOST p false RefineOutcome.httpError = RouteResp.ok (p ++ refineSuffix)
  ∧ p ++ refineSuffix ≠ ""
  ∧ refinePOST p false RefineOutcome.networkError
      = RouteResp.err 500 "Failed to refine prompt"

theorem append_refineSuffix_ne (p : String) : p ++ refineSuffix ≠ "" := by
  intro h
  have hl := congrArg String.length h
  rw [String.length_append] at hl
  have h0 : 0 < refineSuffix.length := by decide
  simp only [String.length_empty] at hl
  omega

theorem beq_empty_false_of_ne (p : String) (hp : p ≠ "") : (p == "") = false :=
  beq_eq_false_iff_ne.mpr hp

/-- C3 (amended): for every non-empty userPrompt and every simulated provider
failure, `analyzeWithGeminiWhisk` does not throw and returns the non-empty
userPrompt unchanged; the refine route returns the non-empty suffix fallback
on a non-success HTTP status, but a network exception produces a 500 error
JSON (no prompt) and an empty success body produces an empty refined string
(see the counterexample), contrary to the original claim. -/
theorem C3_failures_degrade (p : String) (hp : p ≠ "") (r : GenOutcome)
    (hr : genFailed r = true) : c3Spec p r := by
  have hb := beq_empty_false_of_ne p hp
  refine ⟨?_, ?_, ?_, append_refineSuffix_ne p, ?_⟩
  · rcases r with _ | _ | c
    · rfl
    · rfl
    · rcases c with _ | t
      · rfl
      · simp only [genFailed, beq_iff_eq] at hr
        simp [analyzeResult, hr]
  · rcases r with _ | _ | c
    · exact hp
    · exact hp
    · rcases c with _ | t
      · exact hp
      · simp only [genFailed, beq_iff_eq] at hr
        simpa [analyzeResult, hr] using hp
  · simp [refinePOST, hb]
  · simp [refinePOST, hb]

theorem C3_failures_degrade_witness :
    ("night market" ≠ "" ∧ genFailed GenOutcome.httpError = true)
    ∧ c3Spec "night market" GenOutcome.httpError :=
  ⟨⟨by decide, by decide⟩,
   C3_failures_degrade "night market" (by decide) GenOutcome.httpError
     (by decide)⟩

/-- C4, counterexample: when the reasoning provider of the generate route
fails, the compilation result is the bare userPrompt — no fixed
quality-enhancing suffix is appended (in particular not the fixed suffix the
refine route uses). -/
theorem C4_no_suffix_on_generate :
    analyzeResult "a cat" GenOutcome.networkError = "a cat"
    ∧ analyzeResult "a cat" GenOutcome.networkError ≠ "a cat" ++ refineSuffix := by
  constructor
  · rfl
  · decide

/-- Conclusion of the amended C4: on provider failure with a non-empty
userPrompt, the refine route returns exactly `userPrompt ++ refineSuffix`
(which contains the userPrompt as a substring), while the generate route
returns the bare userPrompt (which trivially contains itself) with nothing
appended. -/
def c4Spec (p : String) (r : GenOutcome) : Prop :=
  (refinePOST p false RefineOutcome.httpError = RouteResp.ok (p ++ refineSuffix)
    ∧ containsSub (p ++ refineSuffix) p
    ∧ refineSuffix ≠ "")
  ∧ (analyzeResult p r = p ∧ containsSub (analyzeResult p r) p)

theorem data_append (a b : String) : (a ++ b).data = a.data ++ b.data := rfl

/-- C4 (amended): whenever the reasoning provider fails and userPrompt is
non-empty, the refine route's fallback is the deterministic
`userPrompt ++ refineSuffix` (so it contains the original userPrompt as a
substring with the fixed suffix appended), whereas the generate route's
fallback is the original userPrompt itself, with no suffix appended. -/
theorem C4_fallback_contains_prompt (p : String) (hp : p ≠ "") (r : GenOutcome)
    (hr : genFailed r = true) : c4Spec p r := by
  have hb := beq_empty_false_of_ne p hp
  have hself : analyzeResult p r = p := (C3_failures_degrade p hp r hr).1
  refine ⟨⟨?_, ?_, by decide⟩, hself, ?_⟩
  · simp [refinePOST, hb]
  · exact ⟨[], refineSuffix.data, by rw [data_append]; simp⟩
  · exact ⟨[], [], by rw [hself]; simp⟩

theorem C4_fallback_contains_prompt_witness :
    ("red fox" ≠ "" ∧ genFailed (GenOutcome.okJson none) = true)
    ∧ c4Spec "red fox" (GenOutcome.okJson none) :=
  ⟨⟨by decide, by decide⟩,
   C4_fallback_contains_prompt "red fox" (by decide) (GenOutcome.okJson none)
     (by decide)⟩

/-- C7, counterexample: on a successful provider response whose candidate text
is wrapped in quote characters, the generate route returns the candidate
verbatim (whitespace-trimmed only) — the leading quote character survives, so
no quote or preamble stripping takes place. -/
theorem C7_no_quote_stripping :
    analyzeResult "p" (GenOutcome.okJson (some "\"a cat\"")) = "\"a cat\""
    ∧ (analyzeResult "p" (GenOutcome.okJson (some "\"a cat\""))).data.head?
        = some (Char.ofNat 34) := by
  decide

/-- Conclusion of the amended C7: the success path of both routes only
whitespace-trims. A truthy candidate is returned as `jsTrim` of itself
(whatever quotes or preamble it contains), a missing or empty candidate falls
back to the userPrompt, and the refine route returns the trimmed body with no
non-emptiness check at all. -/
def c7Spec (p t b : String) : Prop :=
  analyzeResult p (GenOutcome.okJson (some t)) = jsTrim t
  ∧ analyzeResult p (GenOutcome.okJson none) = p
  ∧ analyzeResult p (GenOutcome.okJson (some "")) = p
  ∧ refinePOST p true (RefineOutcome.okBody b) = RouteResp.ok (jsTrim b)

/-- C7 (amended): on every successful reasoning-provider response the compiler
takes the first textual result and returns it whitespace-trimmed whenever the
raw candidate is non-empty; it strips no quote characters and no preamble
phrase, and a missing/empty candidate falls back to the userPrompt (generate
route) resp. the trimmed body is returned unconditionally (refine route). -/
theorem C7_success_trims_only (p t b : String) (ht : t ≠ "") :
    c7Spec p t b := by
  refine ⟨?_, rfl, rfl, ?_⟩
  · simp [analyzeResult, ht]
  · simp [refinePOST]

theorem C7_success_trims_only_witness :
    (" raw output " ≠ "")
    ∧ c7Spec "p" " raw output " "Sure! Here is the prompt: a cat" :=
  ⟨by decide,
   C7_success_trims_only "p" " raw output " "Sure! Here is the prompt: a cat"
     (by decide)⟩

/-- A node object as received by the generate route (`NodeData` in
`src/app/api/generate/route.ts`): `type` is always a string (the client sends
`n.type || 'unknown'`), the remaining fields are optional. -/
structure NodeData where
  type : String
  text : Option String
  alt : Option String
  note : Option String
  src : Option String
  role : Option String
deriving DecidableEq, Repr

/-- The generate route's projection of request nodes to image references:
`nodes.filter(n => n.type === 'imageNode' && n.src && !n.src.startsWith('blob:'))
     .map(n => ({url: n.src!, alt: n.alt || 'image', note: n.note, role: n.role}))`. -/
def nodeImageRefs (nodes : List NodeData) : List ImageRef :=
  (nodes.filter (fun n =>
      n.type == "imageNode" && jsTruthy n.src
        && !(jsStartsWith (n.src.getD "") "blob:"))).map
    (fun n => ⟨n.src.getD "", jsOrOpt n.alt "image", n.note, n.role⟩)

/-- `const allImages = [...imageRefs, ...images.filter(i => !i.url.startsWith('blob:'))]`. -/
def allImages (nodes : List NodeData) (images : List ImageRef) : List ImageRef :=
  nodeImageRefs nodes ++ images.filter (fun i => !(jsStartsWith i.url "blob:"))

/-- Outcome of fetching one image URL inside `urlToBase64`. -/
inductive FetchOutcome where
  | threw
  | notOk
  | ok (body : String) (contentType : Option String)
deriving DecidableEq, Repr

/-- `urlToBase64` from `src/app/api/generate/route.ts` as a function of a fetch
oracle: `blob:` URLs are rejected up front, fetch failures and non-success
statuses yield `null`, and a success yields the encoded body with the
content-type defaulted to `image/jpeg`. (The base64 transform itself is
abstracted as the raw body; the claims concern only which images are sent.) -/
def urlToBase64 (fetchResult : String → FetchOutcome) (url : String) :
    Option (String × String) :=
  if jsStartsWith url "blob:" then none
  else
    match fetchResult url with
    | .threw => none
    | .notOk => none
    | .ok body ct => some (body, jsOrOpt ct "image/jpeg")

/-- `handleGenerate`'s client-side collection of image references
(`src/components/graph/index.tsx`): image nodes with a truthy `src`, alt
defaulted to `'reference image'`, note defaulted to `''`, no role field, then
`blob:` URLs filtered out. -/
def clientImageRefs (nodes : List RFNode) : List ImageRef :=
  ((nodes.filter (fun n => n.type == some "imageNode" && jsTruthy n.src)).map
      (fun n => ⟨n.src.getD "", jsOrOpt n.alt "reference image",
                 some (jsOrOpt n.note ""), none⟩)).filter
    (fun i => !(jsStartsWith i.url "blob:"))

/-- Conclusion of C6: nothing in the assembled image context has a `blob:`
URL, `urlToBase64` refuses every `blob:` URL regardless of the network, and
the client-side collection never ships a `blob:` URL either. -/
def c6Spec (nodes : List NodeData) (images : List ImageRef)
    (fetchResult : String → FetchOutcome) (i : ImageRef) (u : String)
    (cnodes : List RFNode) : Prop :=
  (i ∈ allImages nodes images → jsStartsWith i.url "blob:" = false)
  ∧ urlToBase64 fetchResult u = none
  ∧ (∀ j ∈ clientImageRefs cnodes, jsStartsWith j.url "blob:" = false)

/-- C6: an image whose URL is a transient `blob:` handle is never included in
the assembled structured context (`allImages`), is never encoded or sent to
the reasoning provider (`urlToBase64` returns `null` for it), and is already
dropped by the client before the request is built. -/
theorem C6_blob_never_included (nodes : List NodeData) (images : List ImageRef)
    (fetchResult : String → FetchOutcome) (i : ImageRef) (u : String)
    (hu : jsStartsWith u "blob:" = true) (cnodes : List RFNode) :
    c6Spec nodes images fetchResult i u cnodes := by
  refine ⟨?_, ?_, ?_⟩
  · intro hi
    unfold allImages at hi
    rcases List.mem_append.mp hi with h | h
    · unfold nodeImageRefs at h
      rcases List.mem_map.mp h with ⟨n, hn, hni⟩
      have hcond := (List.mem_filter.mp hn).2
      simp only [Bool.and_eq_true] at hcond
      rw [← hni]
      simpa using hcond.2
    · have hcond := (List.mem_filter.mp h).2
      simpa using hcond
  · unfold urlToBase64
    simp [hu]
  · intro j hj
    have hcond := (List.mem_filter.mp hj).2
    simpa using hcond

theorem C6_blob_never_included_witness :
    (jsStartsWith "blob:abc123" "blob:" = true)
    ∧ c6Spec
        [⟨"imageNode", none, some "kept", none, some "https://x/kept.png",
          none⟩,
         ⟨"imageNode", none, some "local", none, some "blob:abc123", none⟩]
        [⟨"blob:def456", "direct", none, none⟩]
        (fun _ => FetchOutcome.ok "bytes" none)
        ⟨"https://x/kept.png", "kept", none, none⟩
        "blob:abc123"
        [⟨some "imageNode", none, some "local", none, some "blob:abc123",
          none⟩] :=
  ⟨by decide,
   C6_blob_never_included _ _ _ _ "blob:abc123" (by decide) _⟩

/-- One entry of a provider candidate's `content.parts` in the credentialed
generation route: an inline image payload or plain text. -/
inductive RespPart where
  | inlineData (mime : Option String) (payload : String)
  | textPart (t : String)
deriving DecidableEq, Repr

/-- Outcome of the `gemini-2.0-flash-exp:generateContent` call in the
credentialed generation route: thrown fetch/parse error, non-success status
(with the optional `data.error.message`), or a parsed body whose first
candidate has the given parts (the empty list models a missing candidate). -/
inductive GeminiOutcome where
  | threw (message : String)
  | notOk (message : Option String)
  | ok (parts : List RespPart)
deriving DecidableEq, Repr

/-- A normalized `{url, prompt}` generation result entry. -/
structure GenImage where
  url : String
  prompt : String
deriving DecidableEq, Repr

/-- The JSON payload of a successful generation response. -/
structure ApiResult where
  images : List GenImage
  provider : String
  mode : String
deriving DecidableEq, Repr

/-- A generation route response: success payload or error JSON with status. -/
inductive ApiResponse where
  | ok (r : ApiResult)
  | err (status : Nat) (message : String)
deriving DecidableEq, Repr

/-- `data:<mime || image/png>;base64,<payload>` as built by the credentialed
route for inline image parts. -/
def dataUrl (mime : Option String) (payload : String) : String :=
  "data:" ++ jsOrOpt mime "image/png" ++ ";base64," ++ payload

/-- The credentialed route's extraction of usable images from the candidate
parts: every inline part with a truthy payload becomes a `{url, prompt}` entry
carrying the request prompt. -/
def extractGenImages (prompt : String) (parts : List RespPart) : List GenImage :=
  parts.filterMap (fun p =>
    match p with
    | .inlineData mime payload =>
        if payload = "" then none else some ⟨dataUrl mime payload, prompt⟩
    | .textPart _ => none)

/-- The Pollinations GET URL: prompt URL-encoded (the encoder is passed in as
`enc`), fixed 1024x1024 dimensions, random seed, model flux. -/
def pollinationsUrl (encodedPrompt : String) (seed : Nat) : String :=
  "https://image.pollinations.ai/prompt/" ++ encodedPrompt
    ++ "?width=1024&height=1024&seed=" ++ toString seed
    ++ "&model=flux&nologo=true"

/-- `generateWithPollinations` from the credentialed generation route: a
single `{url, prompt}` entry using the same prompt. -/
def generateWithPollinations (enc : String → String) (seed : Nat)
    (prompt : String) : ApiResult :=
  ⟨[⟨pollinationsUrl (enc prompt) seed, prompt⟩], "pollinations", "generate"⟩

/-- A `{url, alt}` image reference in the credentialed route's request body. -/
structure SimpleImage where
  url : String
  alt : String
deriving DecidableEq, Repr

/-- `POST` of the credentialed generation route as a function of the provider
outcome: 400 on a falsy prompt; with provider `gemini` and a configured key,
a thrown error or non-success status is surfaced as a 500 error JSON (via the
outer catch), a candidate with zero usable inline images falls back to
`generateWithPollinations` with the same prompt, and otherwise the gemini
images are returned; without the credentialed provider the keyless path runs
directly. -/
def post009 (hasGeminiKey : Bool) (provider : String) (prompt : String)
    (images : List SimpleImage) (outcome : GeminiOutcome)
    (enc : String → String) (seed : Nat) : ApiResponse :=
  if prompt == "" then .err 400 "Missing prompt"
  else if provider == "gemini" && hasGeminiKey then
    match outcome with
    | .threw msg => .err 500 msg
    | .notOk msg => .err 500 (jsOrOpt msg "Gemini API error")
    | .ok parts =>
        let generatedImages := extractGenImages prompt parts
        if generatedImages.isEmpty then
          .ok (generateWithPollinations enc seed prompt)
        else
          .ok ⟨generatedImages, "gemini",
               if images.isEmpty then "generate" else "reference"⟩
  else .ok (generateWithPollinations enc seed prompt)

/-- Conclusion of C8: when the credentialed provider is configured but yields
zero usable images, the route answers with the keyless Pollinations result for
the same prompt — a success (not an error) holding exactly one `{url, prompt}`
entry whose prompt equals the final prompt. -/
def c8Spec (prompt : String) (images : List SimpleImage)
    (parts : List RespPart) (enc : String → String) (seed : Nat) : Prop :=
  post009 true "gemini" prompt images (GeminiOutcome.ok parts) enc seed
      = ApiResponse.ok (generateWithPollinations enc seed prompt)
  ∧ (generateWithPollinations enc seed prompt).images.length = 1
  ∧ (∀ g ∈ (generateWithPollinations enc seed prompt).images,
      g.prompt = prompt)
  ∧ (generateWithPollinations enc seed prompt).provider = "pollinations"

/-- C8: if the credentialed generation provider is configured but yields zero
usable images, the route falls back to the keyless text-to-image provider
using the same final prompt, and the result still contains at least one
`{url, prompt}` entry whose prompt equals that final prompt, rather than
surfacing an error. -/
theorem C8_empty_gemini_falls_back (prompt : String) (hp : prompt ≠ "")
    (images : List SimpleImage) (parts : List RespPart)
    (hparts : extractGenImages prompt parts = []) (enc : String → String)
    (seed : Nat) : c8Spec prompt images parts enc seed := by
  have hb := beq_empty_false_of_ne prompt hp
  refine ⟨?_, rfl, ?_, rfl⟩
  · simp [post009, hb, hparts]
  · intro g hg
    simp only [generateWithPollinations, List.mem_singleton] at hg
    rw [hg]

theorem C8_empty_gemini_falls_back_witness :
    ("a red fox in snow" ≠ ""
      ∧ extractGenImages "a red fox in snow"
          [RespPart.textPart "I cannot generate that image",
           RespPart.inlineData none ""] = [])
    ∧ c8Spec "a red fox in snow" [] 
        [RespPart.textPart "I cannot generate that image",
         RespPart.inlineData none ""]
        (fun s => s) 42 :=
  ⟨⟨by decide, by decide⟩,
   C8_empty_gemini_falls_back "a red fox in snow" (by decide) []
     [RespPart.textPart "I cannot generate that image",
      RespPart.inlineData none ""]
     (by decide) (fun s => s) 42⟩

/-- An edge object as sent to the generate route (`EdgeData`). -/
structure EdgeData where
  source : String
  target : String
  label : Option String
deriving DecidableEq, Repr

/-- The generate route's text descriptors:
`nodes.filter(n => n.type === 'textNode' && n.text).map(n => n.text)`. -/
def textDescriptorsReq (nodes : List NodeData) : List String :=
  (nodes.filter (fun n => n.type == "textNode" && jsTruthy n.text)).map
    (fun n => n.text.getD "")

/-- The generate route's relationship labels:
`edges.filter(e => e.label).map(e => e.label)`. -/
def relationshipsReq (edges : List EdgeData) : List String :=
  (edges.filter (fun e => jsTruthy e.label)).map (fun e => e.label.getD "")

/-- The final compiled prompt of the whisk generate route: initialized to
`prompt || textDescriptors.join(", ") || "Generate an image"` and overwritten
by the Gemini analysis result when an API key is configured and there is any
image or text content (the analysis receiving
`prompt || "Create a cohesive image combining all references"`). -/
def finalPromptOf (hasKey : Bool) (prompt : String) (nodes : List NodeData)
    (images : List ImageRef) (outcome : GenOutcome) : String :=
  if hasKey
      && (!(allImages nodes images).isEmpty
            || !(textDescriptorsReq nodes).isEmpty) then
    analyzeResult (jsOr prompt "Create a cohesive image combining all references")
      outcome
  else
    jsOr (jsOr prompt (String.intercalate ", " (textDescriptorsReq nodes)))
      "Generate an image"

/-- `POST` of the whisk generate route (`src/app/api/generate/route.ts`): 400
when prompt and nodes are both missing; otherwise a single Pollinations image
entry paired with the final compiled prompt that was encoded into the
generation URL. -/
def generatePOST (hasKey : Bool) (prompt : String) (images : List ImageRef)
    (nodes : List NodeData) (edges : List EdgeData) (outcome : GenOutcome)
    (enc : String → String) (seed : Nat) : ApiResponse :=
  if prompt == "" && nodes.isEmpty then
    .err 400 "Missing prompt or canvas content"
  else
    .ok ⟨[⟨pollinationsUrl (enc (finalPromptOf hasKey prompt nodes images outcome))
            seed,
          finalPromptOf hasKey prompt nodes images outcome⟩],
         if hasKey then "gemini-whisk" else "pollinations",
         if (allImages nodes images).isEmpty then "generate" else "whisk"⟩

/-- `handleGenerate`'s node payload (`src/components/graph/index.tsx`):
`{type: n.type || 'unknown', text, alt, note, src, role}` for every node. -/
def clientNodeData (nodes : List RFNode) : List NodeData :=
  nodes.map (fun n => ⟨jsOrOpt n.type "unknown", n.text, n.alt, n.note, n.src,
    n.role⟩)

/-- `const prompt = promptPreview.trim() || buildSimplePrompt(nodes)`. -/
def clientPrompt (promptPreview : String) (nodes : List RFNode) : String :=
  jsOr (jsTrim promptPreview) (buildSimplePrompt nodes)

/-- The prompt string `handleGenerate` sends to the generate route:
`prompt || "Generate based on the canvas content"`. -/
def sentPrompt (promptPreview : String) (nodes : List RFNode) : String :=
  jsOr (clientPrompt promptPreview nodes) "Generate based on the canvas content"

/-- The prompt string `handleGenerate` logs alongside each appended item:
`prompt || "Canvas-based generation"`. -/
def loggedPrompt (promptPreview : String) (nodes : List RFNode) : String :=
  jsOr (clientPrompt promptPreview nodes) "Canvas-based generation"

/-- The items `handleGenerate` passes to `addGenerated`: each response image's
url paired with the client-side prompt, discarding the response's own `prompt`
field. -/
def appendedItems (promptPreview : String) (nodes : List RFNode)
    (respImages : List GenImage) : List GenImage :=
  respImages.map (fun g => ⟨g.url, loggedPrompt promptPreview nodes⟩)

/-- The canvas for the C9 counterexample: a single text node. -/
def c9Nodes : List RFNode :=
  [⟨some "textNode", some "cyber", none, none, none, none⟩]

/-- C9, counterexample: with a configured key the server compiles the final
prompt `"enhanced cat masterpiece"`, hands it to the generation provider and
pairs it with the returned image, but the client appends the item with its own
pre-compilation prompt `"a cat"` — the logged prompt differs from the final
compiled prompt. -/
theorem C9_logged_prompt_differs :
    generatePOST true (sentPrompt "a cat" c9Nodes) (clientImageRefs c9Nodes)
        (clientNodeData c9Nodes) [] (GenOutcome.okJson
          (some "enhanced cat masterpiece")) (fun s => s) 7
      = ApiResponse.ok
          ⟨[⟨pollinationsUrl "enhanced cat masterpiece" 7,
             "enhanced cat masterpiece"⟩], "gemini-whisk", "generate"⟩
    ∧ appendedItems "a cat" c9Nodes
        [⟨pollinationsUrl "enhanced cat masterpiece" 7,
          "enhanced cat masterpiece"⟩]
      = [⟨pollinationsUrl "enhanced cat masterpiece" 7, "a cat"⟩]
    ∧ ("a cat" : String) ≠ "enhanced cat masterpiece" := by
  refine ⟨by decide, by decide, by decide⟩

/-- Conclusion of the amended C9: every image in a successful generate
response is paired with the final compiled prompt (the string handed to the
generation provider), while every item the client appends to the project log
carries the client-side prompt (`prompt || "Canvas-based generation"`)
instead. -/
def c9Spec (hasKey : Bool) (pv : String) (nodes : List RFNode)
    (outcome : GenOutcome) (r : ApiResult) : Prop :=
  (∀ g ∈ r.images,
    g.prompt
      = finalPromptOf hasKey (sentPrompt pv nodes) (clientNodeData nodes)
          (clientImageRefs nodes) outcome)
  ∧ ∀ it ∈ appendedItems pv nodes r.images, it.prompt = loggedPrompt pv nodes

/-- C9 (amended): the generate route's response pairs each image with the
final compiled prompt, but the prompt field logged alongside each appended
GeneratedItem is the client's own pre-compilation prompt, not the final
compiled prompt handed to the generation provider (they differ whenever the
reasoning step rewrote the prompt — see the counterexample). -/
theorem C9_server_vs_client_prompt (hasKey : Bool) (pv : String)
    (nodes : List RFNode) (edges : List EdgeData) (outcome : GenOutcome)
    (enc : String → String) (seed : Nat) (r : ApiResult)
    (h : generatePOST hasKey (sentPrompt pv nodes) (clientImageRefs nodes)
        (clientNodeData nodes) edges outcome enc seed = ApiResponse.ok r) :
    c9Spec hasKey pv nodes outcome r := by
  constructor
  · intro g hg
    unfold generatePOST at h
    split at h
    · cases h
    · cases h
      simp only [List.mem_singleton] at hg
      rw [hg]
  · intro it hit
    unfold appendedItems at hit
    rcases List.mem_map.mp hit with ⟨g, _, hgit⟩
    rw [← hgit]

theorem C9_server_vs_client_prompt_witness :
    (generatePOST false (sentPrompt "sunset" []) (clientImageRefs [])
        (clientNodeData []) [] GenOutcome.networkError (fun s => s) 3
      = ApiResponse.ok
          ⟨[⟨pollinationsUrl "sunset" 3, "sunset"⟩], "pollinations",
           "generate"⟩)
    ∧ c9Spec false "sunset" [] GenOutcome.networkError
        ⟨[⟨pollinationsUrl "sunset" 3, "sunset"⟩], "pollinations",
         "generate"⟩ :=
  ⟨by decide,
   C9_server_vs_client_prompt false "sunset" [] [] GenOutcome.networkError
     (fun s => s) 3 _ (by decide)⟩

/-- An asset in the project store (`Asset` in `src/store/use-projects.ts`). -/
structure StoreAsset where
  id : String
  type : String
  url : Option String
  text : Option String
  name : Option String
deriving DecidableEq, Repr

/-- A generated-history entry (`GeneratedItem` in the store). -/
structure GeneratedItem where
  id : String
  url : String
  prompt : Option String
  createdAt : Nat
deriving DecidableEq, Repr

/-- One `{id, alt, src}` reference inside `lastGenerated`. -/
structure LastGenRef where
  id : String
  alt : String
  src : String
deriving DecidableEq, Repr

/-- The `lastGenerated` payload of a project. -/
structure LastGenerated where
  prompt : String
  imageRefs : List LastGenRef
  ts : Nat
deriving DecidableEq, Repr

/-- A project in the store (`Project` in `src/store/use-projects.ts`). -/
structure Project where
  id : String
  name : String
  assets : List StoreAsset
  nodes : List RFNode
  edges : List EdgeData
  selectedAssetId : Option String
  lastGenerated : Option LastGenerated
  generated : List GeneratedItem
deriving DecidableEq, Repr

/-- A saved theme/character preset (`Preset` in the store). -/
structure Preset where
  id : String
  name : String
  type : String
  nodes : List RFNode
  edges : List EdgeData
deriving DecidableEq, Repr

/-- The zustand store state (`ProjectsState`). -/
structure ProjectsState where
  projects : List Project
  presets : List Preset
  activeId : Option String
deriving DecidableEq, Repr

/-- `active()` from the store:
`projects.find(p => p.id === activeId) || projects[0]` (a string never equals
a null `activeId`, so a null or dangling `activeId` falls back to the first
project; an empty store yields `undefined`). -/
def activeProject (s : ProjectsState) : Option Project :=
  match s.projects.find? (fun p => some p.id == s.activeId) with
  | some p => some p
  | none => s.projects.head?

/-- `setGraph` from the store: replace `nodes` and `edges` of the project
whose id matches the active project's id, leaving every other project as is.
(When the store has no project, the JS code throws on `p.id` before calling
`set`, so the state is unchanged.) -/
def setGraph (s : ProjectsState) (nodes : List RFNode)
    (edges : List EdgeData) : ProjectsState :=
  match activeProject s with
  | none => s
  | some p =>
      { s with projects := s.projects.map (fun pr =>
          if pr.id == p.id then { pr with nodes := nodes, edges := edges }
          else pr) }

/-- `addAssets` from the store: append the prepared assets (ids already
assigned via nanoid) to the active project's `assets`. -/
def addAssets (s : ProjectsState) (toAdd : List StoreAsset) : ProjectsState :=
  match activeProject s with
  | none => s
  | some p =>
      { s with projects := s.projects.map (fun pr =>
          if pr.id == p.id then { pr with assets := pr.assets ++ toAdd }
          else pr) }

/-- `markGenerated` from the store: overwrite the active project's
`lastGenerated` with the payload. -/
def markGenerated (s : ProjectsState) (payload : Option LastGenerated) :
    ProjectsState :=
  match activeProject s with
  | none => s
  | some p =>
      { s with projects := s.projects.map (fun pr =>
          if pr.id == p.id then { pr with lastGenerated := payload }
          else pr) }

/-- `addGenerated` from the store: append the prepared items (ids/createdAt
already assigned) to the active project's `generated` list. -/
def addGenerated (s : ProjectsState) (toAdd : List GeneratedItem) :
    ProjectsState :=
  match activeProject s with
  | none => s
  | some p =>
      { s with projects := s.projects.map (fun pr =>
          if pr.id == p.id then { pr with generated := pr.generated ++ toAdd }
          else pr) }

/-- All project fields except `nodes`/`edges` agree. -/
def agreeExceptGraph (a b : Project) : Prop :=
  a.id = b.id ∧ a.name = b.name ∧ a.assets = b.assets
    ∧ a.selectedAssetId = b.selectedAssetId
    ∧ a.lastGenerated = b.lastGenerated ∧ a.generated = b.generated

/-- All project fields except `assets` agree. -/
def agreeExceptAssets (a b : Project) : Prop :=
  a.id = b.id ∧ a.name = b.name ∧ a.nodes = b.nodes ∧ a.edges = b.edges
    ∧ a.selectedAssetId = b.selectedAssetId
    ∧ a.lastGenerated = b.lastGenerated ∧ a.generated = b.generated

/-- All project fields except `lastGenerated` agree. -/
def agreeExceptLastGen (a b : Project) : Prop :=
  a.id = b.id ∧ a.name = b.name ∧ a.assets = b.assets ∧ a.nodes = b.nodes
    ∧ a.edges = b.edges ∧ a.selectedAssetId = b.selectedAssetId
    ∧ a.generated = b.generated

/-- All project fields except `generated` agree. -/
def agreeExceptGenerated (a b : Project) : Prop :=
  a.id = b.id ∧ a.name = b.name ∧ a.assets = b.assets ∧ a.nodes = b.nodes
    ∧ a.edges = b.edges ∧ a.selectedAssetId = b.selectedAssetId
    ∧ a.lastGenerated = b.lastGenerated

/-- Conclusion of C10, for one store operation `t` with active project id
`pid`: presets and activeId are untouched, and the projects list is related
pointwise (same length, same order) so that a project with a different id is
completely unchanged and the matching project differs at most as `rel` allows. -/
def frameSpec (s t : ProjectsState) (pid : String)
    (rel : Project → Project → Prop) : Prop :=
  t.presets = s.presets ∧ t.activeId = s.activeId
    ∧ List.Forall₂ (fun old new =>
        (old.id ≠ pid → new = old) ∧ (old.id = pid → rel old new))
      s.projects t.projects

/-- Conclusion of C10 for all four per-project store operations. -/
def c10Spec (s : ProjectsState) (p : Project) (nodes : List RFNode)
    (edges : List EdgeData) (assets : List StoreAsset)
    (payload : Option LastGenerated) (items : List GeneratedItem) : Prop :=
  frameSpec s (setGraph s nodes edges) p.id
    (fun old new => agreeExceptGraph old new ∧ new.nodes = nodes
      ∧ new.edges = edges)
  ∧ frameSpec s (addAssets s assets) p.id
      (fun old new => agreeExceptAssets old new
        ∧ new.assets = old.assets ++ assets)
  ∧ frameSpec s (markGenerated s payload) p.id
      (fun old new => agreeExceptLastGen old new
        ∧ new.lastGenerated = payload)
  ∧ frameSpec s (addGenerated s items) p.id
      (fun old new => agreeExceptGenerated old new
        ∧ new.generated = old.generated ++ items)

theorem store_map_frame (l : List Project) (pid : String)
    (f : Project → Project) :
    List.Forall₂ (fun old new => (old.id ≠ pid → new = old)
        ∧ (old.id = pid → new = f old))
      l (l.map (fun pr => if pr.id == pid then f pr else pr)) := by
  induction l with
  | nil => exact List.Forall₂.nil
  | cons x xs ih =>
    refine List.Forall₂.cons ?_ ih
    by_cases h : x.id = pid
    · simp [h]
    · constructor
      · intro
        simp [beq_eq_false_iff_ne.mpr h]
      · intro hx
        exact absurd hx h

/-- C10: every per-project store operation (`setGraph`, `addAssets`,
`markGenerated`, `addGenerated`) modifies only the project whose id is the
active project's id, and only its targeted field (`setGraph` replaces only
nodes and edges, `addAssets` only appends to `assets`, `markGenerated` only
overwrites `lastGenerated`, `addGenerated` only appends fresh items to
`generated`); every other project in the store, and every other field of the
active project, and the presets and activeId, are unchanged. -/
theorem C10_store_ops_frame (s : ProjectsState) (p : Project)
    (hp : activeProject s = some p) (nodes : List RFNode)
    (edges : List EdgeData) (assets : List StoreAsset)
    (payload : Option LastGenerated) (items : List GeneratedItem) :
    c10Spec s p nodes edges assets payload items := by
  refine ⟨?_, ?_, ?_, ?_⟩
  · unfold setGraph
    rw [hp]
    refine ⟨rfl, rfl, ?_⟩
    refine List.Forall₂.imp ?_ (store_map_frame s.projects p.id
      (fun pr => { pr with nodes := nodes, edges := edges }))
    intro old new hrel
    refine ⟨hrel.1, fun hid => ?_⟩
    rw [hrel.2 hid]
    exact ⟨⟨rfl, rfl, rfl, rfl, rfl, rfl⟩, rfl, rfl⟩
  · unfold addAssets
    rw [hp]
    refine ⟨rfl, rfl, ?_⟩
    refine List.Forall₂.imp ?_ (store_map_frame s.projects p.id
      (fun pr => { pr with assets := pr.assets ++ assets }))
    intro old new hrel
    refine ⟨hrel.1, fun hid => ?_⟩
    rw [hrel.2 hid]
    exact ⟨⟨rfl, rfl, rfl, rfl, rfl, rfl, rfl⟩, rfl⟩
  · unfold markGenerated
    rw [hp]
    refine ⟨rfl, rfl, ?_⟩
    refine List.Forall₂.imp ?_ (store_map_frame s.projects p.id
      (fun pr => { pr with lastGenerated := payload }))
    intro old new hrel
    refine ⟨hrel.1, fun hid => ?_⟩
    rw [hrel.2 hid]
    exact ⟨⟨rfl, rfl, rfl, rfl, rfl, rfl, rfl⟩, rfl⟩
  · unfold addGenerated
    rw [hp]
    refine ⟨rfl, rfl, ?_⟩
    refine List.Forall₂.imp ?_ (store_map_frame s.projects p.id
      (fun pr => { pr with generated := pr.generated ++ items }))
    intro old new hrel
    refine ⟨hrel.1, fun hid => ?_⟩
    rw [hrel.2 hid]
    exact ⟨⟨rfl, rfl, rfl, rfl, rfl, rfl, rfl⟩, rfl⟩

/-- A two-project store for the C10 witness, with the second project active. -/
def c10State : ProjectsState :=
  ⟨[⟨"p1", "Campaign 1", [], [], [], none, none, []⟩,
    ⟨"p2", "Campaign 2", [], [], [], none, none, []⟩],
   [], some "p2"⟩

theorem C10_store_ops_frame_witness :
    activeProject c10State
        = some ⟨"p2", "Campaign 2", [], [], [], none, none, []⟩
    ∧ c10Spec c10State ⟨"p2", "Campaign 2", [], [], [], none, none, []⟩
        [] [] [] none
        [⟨"g1", "https://img/1.png", some "a prompt", 100⟩] :=
  ⟨by decide,
   C10_store_ops_frame c10State _ (by decide) [] [] [] none
     [⟨"g1", "https://img/1.png", some "a prompt", 100⟩]⟩
